import Mathlib

/-!
DisasterWatch backend — shallow embedding and verification.

This file embeds the aggregation pipeline of the DisasterWatch backend
(`server.js`) in Lean 4 and proves the behavioural properties claimed by its
specification: per-source normalization adapters, spatial deduplication,
severity/recency ranking, settled-results aggregation, and the TTL cache.

Modelling conventions:
* JavaScript numbers that carry data (coordinates, magnitudes) are modelled as
  rationals; raw feed values that may be absent or not-a-number are modelled by
  `RawVal` (a finite number, `NaN`, or an absent field).
* Timestamps are integers (milliseconds since the Unix epoch, the value of
  `Date.now()` / `new Date(s).getTime()`).
* Network effects are modelled by passing each adapter the already-fetched,
  already-parsed payload; `Promise.allSettled` is modelled by passing the
  settled outcome (`FetchResult`) of each adapter to the aggregator.
* Display-only string formatting (`toFixed` inside template literals, the
  markup-stripping regex) is not modelled; the affected fields are carried as
  plain strings.
-/

namespace DisasterWatch

/-- A raw JavaScript value read from a feed at a coordinate position:
a finite number, `NaN`, or an absent (`undefined`) field. -/
inductive RawVal where
  | num (q : ℚ)
  | nan
  | missing
deriving DecidableEq

/-- JS truthiness of a numeric field: `0`, `NaN` and `undefined` are falsy. -/
def truthyNum : RawVal → Bool
  | .num q => decide (q ≠ 0)
  | .nan => false
  | .missing => false

/-- The JS global `isNaN`: `NaN` and `undefined` (which coerces to `NaN`)
are NaN; every finite number is not. -/
def jsIsNaN : RawVal → Bool
  | .num _ => false
  | .nan => true
  | .missing => true

/-- Whether a raw value is a finite number. -/
def RawVal.isNum : RawVal → Bool
  | .num _ => true
  | _ => false

/-- JS truthiness of an optional string: absent and `""` are falsy. -/
def truthyStr : Option String → Bool
  | some s => decide (s ≠ "")
  | none => false

/-- Helper for `strContains`: does `pat` occur as a contiguous run in the
character list? -/
def strContainsAux (pat : List Char) : List Char → Bool
  | [] => pat.isEmpty
  | c :: rest => pat.isPrefixOf (c :: rest) || strContainsAux pat rest

/-- JS `String.prototype.includes`: substring containment. -/
def strContains (s pat : String) : Bool := strContainsAux pat.toList s.toList

/-- JS `String.prototype.toLowerCase` (per-character lowering; the feeds and
keyword tables are ASCII). -/
def lowerStr (s : String) : String := String.mk (s.data.map Char.toLower)

/-- The value of `parseFloat(mag.toFixed(1))`: the magnitude rounded to one decimal. -/
def roundToTenth (q : ℚ) : ℚ := ((round (q * 10) : ℤ) : ℚ) / 10

/-- The canonical incident schema produced by the pipeline (post-filter, so
coordinates are genuine numbers). Source-specific extension fields
(`upvotes`, `comments`, `subreddit`) are optional. -/
structure Incident where
  id : String
  type : String
  title : String
  location : String
  lat : ℚ
  lng : ℚ
  severity : String
  magnitude : Option ℚ := none
  time : Option Int := none
  source : String
  url : String
  description : String := ""
  upvotes : Option Int := none
  comments : Option Nat := none
  subreddit : Option String := none
deriving DecidableEq

/-- An incident record as built inside an adapter, before any coordinate
filter has run: the coordinate slots still hold raw feed values. -/
structure RawIncident where
  id : String
  type : String
  title : String
  location : String
  lat : RawVal
  lng : RawVal
  severity : String
  magnitude : Option ℚ := none
  time : Option Int := none
  source : String
  url : String
  description : String := ""
  upvotes : Option Int := none
  comments : Option Nat := none
  subreddit : Option String := none
deriving DecidableEq

/-! ## Source 1: USGS earthquakes (`fetchUSGS`) -/

/-- One entry of `data.features` in the USGS GeoJSON feed, restricted to the
fields the adapter reads. `lngRaw`, `latRaw` are `geometry.coordinates[0]`
and `geometry.coordinates[1]`. -/
structure USGSFeature where
  id : String
  mag : ℚ
  title : String
  place : String
  lngRaw : RawVal
  latRaw : RawVal
  timeMs : Int
  url : String
deriving DecidableEq

/-- Severity from magnitude, exactly the `if`/`else if` chain of `fetchUSGS`. -/
def usgsSeverity (mag : ℚ) : String :=
  if mag ≥ 6.5 then "critical"
  else if mag ≥ 5.5 then "high"
  else if mag ≥ 4.5 then "moderate"
  else "low"

/-- The object built by the `.map` callback of `fetchUSGS` for one feature. -/
def usgsMap (f : USGSFeature) : RawIncident :=
  { id := "usgs_" ++ f.id
    type := "earthquake"
    title := f.title
    location := f.place
    lat := f.latRaw
    lng := f.lngRaw
    severity := usgsSeverity f.mag
    magnitude := some (roundToTenth f.mag)
    time := some f.timeMs
    source := "USGS Earthquake Hazards"
    url := f.url }

/-- The predicate of the final `.filter(i => i.lat && i.lng)` of `fetchUSGS`. -/
def usgsKeep (i : RawIncident) : Bool := truthyNum i.lat && truthyNum i.lng

/-- Embedding of `fetchUSGS`, parametrized by the parsed feed: map every feature to an
incident record, then keep those whose coordinates are both truthy. -/
def fetchUSGS (features : List USGSFeature) : List RawIncident :=
  (features.map usgsMap).filter usgsKeep

/-! ## Source 2: NASA EONET natural events (`fetchNASAEONET`) -/

/-- The coordinate payload of one EONET geometry entry, assuming the GeoJSON
well-formedness invariant that the declared geometry type matches the shape of
`coordinates`. For a `Point`, `coordinates = [lng, lat]`; for a `Polygon` the
adapter only ever reads `coordinates[0][0] = [lng, lat]` (first vertex of the
outer ring), so only that vertex is represented. -/
inductive GeoCoords where
  | pointC (lng lat : RawVal)
  | polyC (lng lat : RawVal)
deriving DecidableEq

/-- One entry of an EONET event's `geometry` array. `coords = none` models an
entry whose `coordinates` field is absent (the `!geo?.coordinates` guard). -/
structure EONETGeometry where
  gtype : String
  coords : Option GeoCoords
  date : Option Int
deriving DecidableEq

/-- One entry of `data.events` in the EONET feed, restricted to the fields the
adapter reads. `categoryTitle` is `event.categories?.[0]?.title`; `sourceUrl`
is `event.sources?.[0]?.url`. -/
structure EONETEvent where
  id : String
  title : String
  categoryTitle : Option String
  geometry : List EONETGeometry
  sourceUrl : Option String
deriving DecidableEq

/-- The `typeMap` lookup table of `fetchNASAEONET`. -/
def eonetTypeMap : List (String × String) :=
  [("Wildfires", "fire"), ("Floods", "flood"), ("Severe Storms", "storm"),
   ("Volcanoes", "volcano"), ("Tsunamis", "tsunami"), ("Earthquakes", "earthquake"),
   ("Drought", "other"), ("Sea and Lake Ice", "other"), ("Snow", "other"),
   ("Dust and Haze", "other"), ("Landslides", "other"), ("Manmade", "other")]

/-- The `sevMap` lookup table of `fetchNASAEONET`. -/
def eonetSevMap : List (String × String) :=
  [("fire", "high"), ("volcano", "high"), ("tsunami", "critical"),
   ("flood", "moderate"), ("storm", "high")]

/-- The coordinate destructuring of `fetchNASAEONET`:
the source reads: if geo.type is "Point" take geo.coordinates as the pair,
else if geo.type is "Polygon" take geo.coordinates[0][0] as the pair,
else skip the event. -/
def eonetCoordPair (gtype : String) (gc : GeoCoords) : Option (RawVal × RawVal) :=
  match gtype, gc with
  | "Point", GeoCoords.pointC lng lat => some (lng, lat)
  | "Polygon", GeoCoords.polyC lng lat => some (lng, lat)
  | _, _ => none

/-- The body of the `for` loop of `fetchNASAEONET` for one event (`none` models
`continue`). `now` is the current time used for the `time` fallback
(`geo.date || new Date().toISOString()`). The last geometry entry is selected
by `event.geometry?.[event.geometry.length - 1]`. -/
def eonetProcess (now : Int) (event : EONETEvent) : Option RawIncident :=
  let category := event.categoryTitle.getD "Unknown"
  let disasterType := (eonetTypeMap.lookup category).getD "other"
  match event.geometry.getLast? with
  | none => none
  | some geo =>
    match geo.coords with
    | none => none
    | some gc =>
      match eonetCoordPair geo.gtype gc with
      | none => none
      | some (lng, lat) =>
        if jsIsNaN lat || jsIsNaN lng then none
        else some
          { id := "nasa_" ++ event.id
            type := disasterType
            title := event.title
            location := event.title
            lat := lat
            lng := lng
            severity := (eonetSevMap.lookup disasterType).getD "moderate"
            time := some (geo.date.getD now)
            source := "NASA EONET"
            url := event.sourceUrl.getD "https://eonet.gsfc.nasa.gov" }

/-- Embedding of `fetchNASAEONET`, parametrized by the parsed feed and the current time. -/
def fetchNASAEONET (now : Int) (events : List EONETEvent) : List RawIncident :=
  events.filterMap (eonetProcess now)

/-! ## Source 3: GDACS multi-hazard alert feed (`fetchGDACS`) -/

/-- One parsed RSS `item` of the GDACS feed, restricted to the fields the
adapter reads. `latRaw`/`lngRaw` hold the value of
parseFloat applied to the geo:lat field, falling back to the first
space-separated part of the georss:point field (and the
longitude analogue): `parseFloat` yields either a finite number or `NaN`, so a
missing or non-numeric geo field appears here as `RawVal.nan`.
`descriptionText` is the description after the markup-stripping replace. -/
structure GDACSItem where
  title : Option String
  link : Option String
  descriptionText : Option String
  pubDateMs : Option Int
  latRaw : RawVal
  lngRaw : RawVal
  alertLevel : Option String
  country : Option String
deriving DecidableEq

/-- The keyword classification of the alert title in `fetchGDACS`
(first match wins, default `other`). -/
def gdacsType (title : String) : String :=
  let t := lowerStr title
  if strContains t "earthquake" || strContains t "quake" then "earthquake"
  else if strContains t "flood" then "flood"
  else if strContains t "cyclone" || strContains t "hurricane" ||
          strContains t "typhoon" || strContains t "storm" then "storm"
  else if strContains t "volcano" || strContains t "eruption" then "volcano"
  else if strContains t "tsunami" then "tsunami"
  else if strContains t "fire" then "fire"
  else "other"

/-- The `sevMap` alert-level table of `fetchGDACS`. -/
def gdacsSevMap : List (String × String) :=
  [("Red", "critical"), ("Orange", "high"), ("Green", "moderate")]

/-- The body of the `.forEach` of `fetchGDACS` for one item at index `idx`
(`none` models the early `return`). `now` is `Date.now()`, used for the
synthetic id. -/
def gdacsProcess (now : Int) (idx : Nat) (item : GDACSItem) : Option RawIncident :=
  let title := item.title.getD ""
  let link := item.link.getD "https://gdacs.org"
  let desc := item.descriptionText.getD ""
  if jsIsNaN item.latRaw || jsIsNaN item.lngRaw then none
  else
    let alertLevel := item.alertLevel.getD ""
    let fallbackSeg := (((title.splitOn "-").getLast?).getD "").trim
    some
      { id := "gdacs_" ++ toString idx ++ "_" ++ toString now
        type := gdacsType title
        title := title.trim
        location :=
          match item.country with
          | some c => if c = "" then (if fallbackSeg = "" then "Unknown" else fallbackSeg) else c
          | none => if fallbackSeg = "" then "Unknown" else fallbackSeg
        lat := item.latRaw
        lng := item.lngRaw
        severity := (gdacsSevMap.lookup alertLevel).getD "moderate"
        time := item.pubDateMs
        source := "GDACS (UN System)"
        url := link
        description := desc.take 200 }

/-- Embedding of `fetchGDACS`, parametrized by the parsed item array and the current time:
the 30 most recent items (`slice(0, 30)`) are processed with their index. -/
def fetchGDACS (now : Int) (items : List GDACSItem) : List RawIncident :=
  (items.take 30).enum.filterMap (fun p => gdacsProcess now p.1 p.2)

/-! ## Source 4: ReliefWeb humanitarian disasters (`fetchReliefWeb`) -/

/-- The `country?.[0]` entry of a ReliefWeb record. `location` holds the result
of `country.location.split(',').map(Number)` destructured as `[lng, lat]`;
`none` models an absent or falsy `location` (the `!country?.location` guard),
and a non-numeric component appears as `RawVal.nan`. -/
structure RWCountry where
  name : Option String
  location : Option (RawVal × RawVal)
deriving DecidableEq

/-- One entry of `data.data` in the ReliefWeb response, restricted to the
fields the adapter reads. -/
structure RWItem where
  id : String
  name : String
  country : Option RWCountry
  typeCode : Option String
  typeName : Option String
  dateCreatedMs : Option Int
  url : Option String
deriving DecidableEq

/-- The `typeMap` two-letter code table of `fetchReliefWeb`. -/
def rwTypeMap : List (String × String) :=
  [("EQ", "earthquake"), ("FL", "flood"), ("TC", "storm"), ("VO", "volcano"),
   ("TS", "tsunami"), ("WF", "fire"), ("DR", "other"), ("EP", "other"),
   ("AC", "other"), ("OT", "other")]

/-- The body of the `for` loop of `fetchReliefWeb` for one record (`none`
models `continue`). -/
def rwProcess (item : RWItem) : Option RawIncident :=
  match item.country with
  | none => none
  | some country =>
    match country.location with
    | none => none
    | some (lngRaw, latRaw) =>
      if jsIsNaN latRaw || jsIsNaN lngRaw then none
      else
        let typeCode :=
          match item.typeCode with
          | some c => if c = "" then "OT" else c
          | none => "OT"
        some
          { id := "rw_" ++ item.id
            type := (rwTypeMap.lookup typeCode).getD "other"
            title := item.name
            location :=
              match country.name with
              | some n => if n = "" then "Unknown" else n
              | none => "Unknown"
            lat := latRaw
            lng := lngRaw
            severity := "high"
            time := item.dateCreatedMs
            source := "ReliefWeb (OCHA)"
            url := item.url.getD ("https://reliefweb.int/disaster/" ++ item.id) }

/-- Embedding of `fetchReliefWeb`, parametrized by the parsed record list. -/
def fetchReliefWeb (items : List RWItem) : List RawIncident :=
  items.filterMap rwProcess

/-! ## Source 5: Reddit social reports (`fetchRedditPosts`) -/

/-- The credential environment variables read by the Reddit adapter. -/
structure RedditEnv where
  clientId : Option String
  clientSecret : Option String
  username : Option String
deriving DecidableEq

/-- One `post.data` entry from a subreddit listing, restricted to the fields
the adapter reads. `title = none` or `some ""` models a falsy `p.title`. -/
structure RedditPost where
  id : String
  title : Option String
  selftext : Option String
  score : Int
  createdUtc : Int
  permalink : String
  numComments : Nat
deriving DecidableEq

/-- The `DISASTER_KEYWORDS` table, in object-insertion order. -/
def DISASTER_KEYWORDS : List (String × List String) :=
  [("earthquake", ["earthquake", "quake", "seismic", "tremor", "aftershock", "magnitude"]),
   ("flood", ["flood", "flooding", "submerged", "inundation", "flash flood"]),
   ("fire", ["wildfire", "fire", "blaze", "inferno", "burning", "forest fire", "brushfire"]),
   ("storm", ["hurricane", "typhoon", "cyclone", "tornado", "storm", "blizzard"]),
   ("volcano", ["volcano", "eruption", "lava", "volcanic"]),
   ("tsunami", ["tsunami", "tidal wave"])]

/-- The `LOCATION_HINTS` gazetteer, in object-insertion order:
place name, latitude, longitude. -/
def LOCATION_HINTS : List (String × ℚ × ℚ) :=
  [("turkey", (39, 35)), ("california", (36.7, -119.4)), ("japan", (36.2, 138.2)),
   ("india", (20.6, 78.9)), ("indonesia", (0.8, 113.9)), ("pakistan", (30.4, 69.3)),
   ("china", (35.9, 104.2)), ("nepal", (28.4, 84.1)), ("philippines", (12.9, 121.8)),
   ("australia", (-25.3, 133.8)), ("brazil", (-14.2, -51.9)), ("chile", (-35.7, -71.5)),
   ("italy", (41.9, 12.5)), ("greece", (39.1, 21.8)), ("morocco", (31.8, -7.1)),
   ("haiti", (18.9, -72.3)), ("mexico", (23.6, -102.5)), ("iran", (32.4, 53.7)),
   ("afghanistan", (33.9, 67.7)), ("ukraine", (48.4, 31.2)), ("peru", (-9.2, -75.0)),
   ("new zealand", (-40.9, 174.9)), ("taiwan", (23.7, 120.9)), ("myanmar", (21.9, 95.9)),
   ("thailand", (15.9, 100.9)), ("bangladesh", (23.7, 90.4)),
   ("los angeles", (34.1, -118.2)), ("san francisco", (37.8, -122.4)),
   ("texas", (31.0, -99.9)), ("florida", (27.7, -81.5)), ("alaska", (64.2, -153.4))]

/-- Embedding of `classifyDisasterType`: first keyword group with a match wins; no match
yields `none` (the post is later discarded). -/
def classifyDisasterType (text : String) : Option String :=
  let lower := lowerStr text
  (DISASTER_KEYWORDS.find? (fun p => p.2.any (fun kw => strContains lower kw))).map
    (fun p => p.1)

/-- Embedding of `extractLocation`: first gazetteer entry whose name occurs in the lowered
text. The two `(Math.random() - 0.5) * 2` jitter draws are supplied as
`jLat`, `jLng` (each in `[-1, 1]`). -/
def extractLocation (text : String) (jLat jLng : ℚ) : Option (String × ℚ × ℚ) :=
  let lower := lowerStr text
  (LOCATION_HINTS.find? (fun p => strContains lower p.1)).map
    (fun p => (p.1.capitalize, p.2.1 + jLat, p.2.2 + jLng))

/-- The `scaryWords` list of `scoreSeverity`. -/
def scaryWords : List String :=
  ["deadly", "deaths", "killed", "casualties", "devastating", "catastrophic",
   "emergency", "massive"]

/-- Embedding of `scoreSeverity`: engagement count plus alarm keywords. -/
def scoreSeverity (upvotes : Int) (title : String) : String :=
  let scary := scaryWords.any (fun w => strContains (lowerStr title) w)
  if upvotes > 5000 || (upvotes > 2000 && scary) then "critical"
  else if upvotes > 1000 || scary then "high"
  else if upvotes > 200 then "moderate"
  else "low"

/-- The body of the inner `for` loop of `fetchRedditPosts` for one post
(`none` models `continue`): engagement gate, keyword classification,
gazetteer geocoding with jitter. -/
def processRedditPost (subName : String) (jLat jLng : ℚ) (p : RedditPost) :
    Option RawIncident :=
  if !truthyStr p.title || p.score < 10 then none
  else
    let title := p.title.getD ""
    let text := title ++ " " ++ p.selftext.getD ""
    match classifyDisasterType text with
    | none => none
    | some t =>
      match extractLocation text jLat jLng with
      | none => none
      | some (locName, la, ln) =>
        some
          { id := "reddit_" ++ p.id
            type := t
            title := title.take 120
            location := locName
            lat := RawVal.num la
            lng := RawVal.num ln
            severity := scoreSeverity p.score title
            time := some (p.createdUtc * 1000)
            source := "Reddit"
            url := "https://reddit.com" ++ p.permalink
            description := (p.selftext.getD "").take 150
            upvotes := some p.score
            comments := some p.numComments
            subreddit := some subName }

/-- One subreddit query's settled outcome: the subreddit name and either the
fetched posts (each paired with its two jitter draws) or a caught error. -/
def SubFetch : Type := String × Except String (List (RedditPost × ℚ × ℚ))

/-- Embedding of `fetchRedditPosts`, parametrized by the environment, the outcome of the
conditional token refresh (`getRedditToken` is awaited outside any `try`, so
its failure rejects the whole adapter), and the settled per-subreddit query
outcomes (a failed community query is caught and contributes nothing).
With no client id configured the adapter returns an empty list without
touching the network. -/
def fetchRedditPosts (env : RedditEnv) (tokenRefresh : Except String Unit)
    (subFetches : List SubFetch) : Except String (List RawIncident) :=
  if !truthyStr env.clientId then Except.ok []
  else
    match tokenRefresh with
    | Except.error e => Except.error e
    | Except.ok _ =>
      Except.ok ((subFetches.map (fun sf =>
        match sf.2 with
        | Except.error _ => []
        | Except.ok posts =>
          posts.filterMap (fun pj => processRedditPost sf.1 pj.2.1 pj.2.2 pj.1))).flatten)

/-! ## Deduplicator (`deduplicateIncidents`) -/

/-- The clash test of `deduplicateIncidents`: identical `type` and both
coordinate deltas strictly below 0.5. -/
def clash (s inc : Incident) : Bool :=
  s.type == inc.type
    && decide (|s.lat - inc.lat| < 0.5)
    && decide (|s.lng - inc.lng| < 0.5)

/-- The filter loop of `deduplicateIncidents` with its `seen` accumulator:
an incident clashing with an already-accepted representative is dropped,
otherwise it is accepted and appended to `seen`. -/
def dedupGo (seen : List Incident) : List Incident → List Incident
  | [] => []
  | inc :: rest =>
    if seen.any (fun s => clash s inc) then dedupGo seen rest
    else inc :: dedupGo (seen ++ [inc]) rest

/-- Embedding of `deduplicateIncidents`: first-seen-wins proximity deduplication. -/
def deduplicateIncidents (incidents : List Incident) : List Incident :=
  dedupGo [] incidents

/-- Modelled from the spec (§4.3), for comparison with the implementation:
process in input order and accept an incident exactly when it clashes with no
previously accepted representative. -/
def specFirstSeenDedup (incidents : List Incident) : List Incident :=
  incidents.foldl
    (fun accepted inc =>
      if accepted.any (fun r => clash r inc) then accepted else accepted ++ [inc])
    []

/-! ## Ranker (the `deduped.sort` comparator of `aggregateAllSources`) -/

/-- The `sevOrder` tier table of `aggregateAllSources`. -/
def sevOrder : List (String × Nat) :=
  [("critical", 0), ("high", 1), ("moderate", 2), ("low", 3)]

/-- The lookup `sevOrder[severity] ?? 3`: unrecognized severities take tier 3. -/
def sevTier (s : String) : Nat := (sevOrder.lookup s).getD 3

/-- The value of `new Date(time || 0)` in milliseconds: a null/missing time is the epoch. -/
def timeMs (t : Option Int) : Int := t.getD 0

/-- The sort comparator as a `≤`-style relation: `a` may precede `b` exactly
when the comparator returns a non-positive value on `(a, b)` — lower severity
tier first, and within a tier the more recent time first. -/
def rankLE (a b : Incident) : Bool :=
  decide (sevTier a.severity < sevTier b.severity)
    || (sevTier a.severity == sevTier b.severity
        && decide (timeMs b.time ≤ timeMs a.time))

/-- The `deduped.sort(...)` call: JS `Array.prototype.sort` is stable, so it
is modelled by the stable `mergeSort`. -/
def rankIncidents (l : List Incident) : List Incident := l.mergeSort rankLE

/-- Modelled from the spec's words, for comparison with the implementation:
"null/missing time sorts as the oldest possible value" — under this reading a
null time is at-most every time, in particular strictly older than any
pre-epoch timestamp. -/
def specNullOldestLE : Option Int → Option Int → Bool
  | none, _ => true
  | some _, none => false
  | some x, some y => decide (x ≤ y)

/-! ## Aggregator (`aggregateAllSources`) -/

/-- One settled entry of the `Promise.allSettled` result. -/
inductive FetchResult where
  | fulfilled (value : List Incident)
  | rejected (reason : String)
deriving DecidableEq

/-- One entry of the `sourceStatus` map. -/
inductive SourceStatus where
  | ok (count : Nat)
  | failed (error : String)
deriving DecidableEq

/-- The `sourceNames` array. -/
def sourceNames : List String := ["USGS", "NASA EONET", "GDACS", "ReliefWeb", "Reddit"]

/-- The body of the `results.forEach` of `aggregateAllSources`: a fulfilled
source appends its incidents to `combined` and records `{ok, count}`, a
rejected source contributes nothing and records `{ok: false, error}`. -/
def recordResult (acc : List Incident × List (String × SourceStatus))
    (p : String × FetchResult) : List Incident × List (String × SourceStatus) :=
  match p.2 with
  | FetchResult.fulfilled v => (acc.1 ++ v, acc.2 ++ [(p.1, SourceStatus.ok v.length)])
  | FetchResult.rejected e => (acc.1, acc.2 ++ [(p.1, SourceStatus.failed e)])

/-- The `forEach` over the settled results, paired with `sourceNames` by
index, building `combined` and `sourceStatus`. -/
def processSettled (results : List FetchResult) :
    List Incident × List (String × SourceStatus) :=
  (sourceNames.zip results).foldl recordResult ([], [])

/-- The settled outcomes of the five adapter promises, in the order they are
passed to `Promise.allSettled`. -/
structure AdapterOutcomes where
  usgs : FetchResult
  nasa : FetchResult
  gdacs : FetchResult
  reliefweb : FetchResult
  reddit : FetchResult
deriving DecidableEq

/-- The array passed to `Promise.allSettled`, after settling. -/
def settledResults (o : AdapterOutcomes) : List FetchResult :=
  [o.usgs, o.nasa, o.gdacs, o.reliefweb, o.reddit]

/-- The value returned by `aggregateAllSources`. -/
structure AggregationResult where
  incidents : List Incident
  sourceStatus : List (String × SourceStatus)
  fetchedAt : Int
deriving DecidableEq

/-- Embedding of `aggregateAllSources`, parametrized by the settled adapter outcomes and
the current time: combine, deduplicate, rank. -/
def aggregateAllSources (o : AdapterOutcomes) (now : Int) : AggregationResult :=
  let p := processSettled (settledResults o)
  { incidents := rankIncidents (deduplicateIncidents p.1)
    sourceStatus := p.2
    fetchedAt := now }

/-! ## Cache manager (the `/api/incidents` routes) -/

/-- The module-level `cache` variable. -/
structure Cache where
  data : Option AggregationResult
  timestamp : Option Int
deriving DecidableEq

/-- The constant `CACHE_TTL_MS = 3 * 60 * 1000`. -/
def CACHE_TTL_MS : Int := 3 * 60 * 1000

/-- The initial `{ data: null, timestamp: null }` cache. -/
def emptyCache : Cache := { data := none, timestamp := none }

/-- The JSON body sent by `/api/incidents`: the aggregation result plus the
`fromCache` flag. -/
structure IncidentsResponse where
  result : AggregationResult
  fromCache : Bool
deriving DecidableEq

/-- The shared refresh path of `/api/incidents`: run the pipeline, store the
result with the current timestamp, reply freshly computed. -/
def refreshCache (now : Int) (o : AdapterOutcomes) : IncidentsResponse × Cache :=
  let r := aggregateAllSources o now
  ({ result := r, fromCache := false }, { data := some r, timestamp := some now })

/-- The `/api/incidents` handler: serve the cached result when
`cache.data && cache.timestamp && (Date.now() - cache.timestamp < CACHE_TTL_MS)`
(JS truthiness: a `0` timestamp is falsy), otherwise refresh. `o` is the
settled outcome the five adapters would produce if invoked now. -/
def getAllIncidents (c : Cache) (now : Int) (o : AdapterOutcomes) :
    IncidentsResponse × Cache :=
  match c.data, c.timestamp with
  | some d, some ts =>
    if ts != 0 && decide (now - ts < CACHE_TTL_MS) then
      ({ result := d, fromCache := true }, c)
    else refreshCache now o
  | some _, none => refreshCache now o
  | none, _ => refreshCache now o

/-- The `/api/incidents/:type` handler:
`cache.data?.incidents || (await aggregateAllSources()).incidents`, filtered by
type. The boolean records whether a fresh aggregation ran; the returned cache
is the (unmodified) cache variable — this route never writes to it. -/
def getIncidentsByType (c : Cache) (t : String) (now : Int) (o : AdapterOutcomes) :
    (List Incident × Nat × Bool) × Cache :=
  match c.data with
  | some d =>
    let filtered := d.incidents.filter (fun i => i.type == t)
    ((filtered, filtered.length, false), c)
  | none =>
    let filtered := (aggregateAllSources o now).incidents.filter (fun i => i.type == t)
    ((filtered, filtered.length, true), c)

/-! ## Concrete sample inputs used by witnesses and counterexamples -/

/-- A minimal canonical incident used to build concrete test inputs. -/
def baseIncident : Incident :=
  { id := "x", type := "other", title := "t", location := "loc", lat := 10, lng := 20,
    severity := "low", source := "s", url := "u" }

/-- An incident whose time is before the Unix epoch (e.g. parsed from the
ISO-8601 string 1969-12-31T23:59:59.000Z). -/
def preEpochIncident : Incident := { baseIncident with id := "pre", time := some (-1000) }

/-- An incident with a null `time` field. -/
def nullTimeIncident : Incident := { baseIncident with id := "nul", time := none }

/-- Two incidents with equal severity tier and equal time, for stability. -/
def stableA : Incident := { baseIncident with id := "a", time := some 500 }

/-- Second incident of the equal-key stability pair. -/
def stableB : Incident := { baseIncident with id := "b", time := some 500 }

/-- An incident of the same type within 0.5 degrees of `baseIncident` on both
axes. -/
def nearDuplicateIncident : Incident :=
  { baseIncident with id := "y", lat := 10.2, lng := 19.9 }

/-- A mix of fulfilled and rejected adapter outcomes. -/
def oMixed : AdapterOutcomes :=
  { usgs := FetchResult.fulfilled [baseIncident]
    nasa := FetchResult.rejected "timeout of 10000ms exceeded"
    gdacs := FetchResult.fulfilled []
    reliefweb := FetchResult.rejected "server error"
    reddit := FetchResult.fulfilled [nullTimeIncident] }

/-- All five adapters rejected (e.g. network timeouts). -/
def oRejected : AdapterOutcomes :=
  { usgs := FetchResult.rejected "timeout of 10000ms exceeded"
    nasa := FetchResult.rejected "timeout of 10000ms exceeded"
    gdacs := FetchResult.rejected "timeout of 10000ms exceeded"
    reliefweb := FetchResult.rejected "timeout of 10000ms exceeded"
    reddit := FetchResult.rejected "timeout of 10000ms exceeded" }

/-- A magnitude-6.6 earthquake feature. -/
def feature66 : USGSFeature :=
  { id := "q1", mag := 6.6, title := "M 6.6", place := "somewhere",
    lngRaw := RawVal.num 30, latRaw := RawVal.num 10, timeMs := 0, url := "u" }

/-- A magnitude-5.6 earthquake feature. -/
def feature56 : USGSFeature := { feature66 with id := "q2", mag := 5.6 }

/-- A magnitude-4.6 earthquake feature. -/
def feature46 : USGSFeature := { feature66 with id := "q3", mag := 4.6 }

/-- A magnitude-3.0 earthquake feature. -/
def feature30 : USGSFeature := { feature66 with id := "q4", mag := 3.0 }

/-- An earthquake feature whose latitude is absent from the feed. -/
def featureNoLat : USGSFeature := { feature66 with id := "q5", latRaw := RawVal.missing }

/-- A valid earthquake feature sitting exactly on the equator (latitude 0). -/
def featureZeroLat : USGSFeature := { feature66 with id := "q6", latRaw := RawVal.num 0 }

/-- A well-formed EONET Point geometry entry. -/
def samplePointGeo : EONETGeometry :=
  { gtype := "Point", coords := some (GeoCoords.pointC (RawVal.num 20) (RawVal.num 60)),
    date := some 1700000000000 }

/-- A wildfire event with two geometry entries; only the last is usable. -/
def sampleEvent : EONETEvent :=
  { id := "EONET_1", title := "Big Fire", categoryTitle := some "Wildfires",
    geometry := [{ gtype := "Point", coords := none, date := none }, samplePointGeo],
    sourceUrl := none }

/-- The incident `eonetProcess` produces for `sampleEvent`. -/
def sampleEventIncident : RawIncident :=
  { id := "nasa_EONET_1", type := "fire", title := "Big Fire", location := "Big Fire",
    lat := RawVal.num 60, lng := RawVal.num 20, severity := "high",
    time := some 1700000000000, source := "NASA EONET",
    url := "https://eonet.gsfc.nasa.gov" }

/-- An environment with no Reddit credentials configured. -/
def noCredEnv : RedditEnv := { clientId := none, clientSecret := none, username := none }

/-- A stored aggregation result for cache tests. -/
def sampleAgg : AggregationResult :=
  { incidents := [{ baseIncident with type := "flood" }, { baseIncident with id := "y", type := "fire" }]
    sourceStatus := [("USGS", SourceStatus.ok 2)], fetchedAt := 100 }

/-- A cache entry stored at time 1, far older than the TTL at any recent
`now`. -/
def staleCache : Cache := { data := some sampleAgg, timestamp := some 1 }

/-! ## Deduplicator lemmas -/

/-- The clash test unfolded to a propositional characterization. -/
theorem clash_eq_false_iff (a b : Incident) :
    clash a b = false
      ↔ (a.type = b.type → ¬(|a.lat - b.lat| < 0.5 ∧ |a.lng - b.lng| < 0.5)) := by
  simp only [clash, Bool.eq_false_iff, ne_eq, Bool.and_eq_true, beq_iff_eq,
    decide_eq_true_eq, not_and]
  tauto

/-- The dedup loop only selects elements of its input, in order. -/
theorem dedupGo_sublist (l : List Incident) :
    ∀ seen : List Incident, (dedupGo seen l).Sublist l := by
  induction l with
  | nil => intro seen; simp [dedupGo]
  | cons inc rest ih =>
    intro seen
    by_cases h : seen.any (fun s => clash s inc)
    · simpa [dedupGo, h] using (ih seen).cons inc
    · simpa [dedupGo, h] using (ih (seen ++ [inc])).cons₂ inc

/-- Everything kept by the dedup loop clashes with nothing in `seen`. -/
theorem mem_dedupGo_clash_false (l : List Incident) :
    ∀ (seen : List Incident) (x : Incident), x ∈ dedupGo seen l →
      ∀ s ∈ seen, clash s x = false := by
  induction l with
  | nil => intro seen x hx; simp [dedupGo] at hx
  | cons inc rest ih =>
    intro seen x hx s hs
    by_cases h : seen.any (fun s => clash s inc)
    · rw [dedupGo, if_pos h] at hx
      exact ih seen x hx s hs
    · rw [dedupGo, if_neg h] at hx
      rcases List.mem_cons.mp hx with rfl | hx
      · refine Bool.eq_false_iff.mpr (fun hc => h ?_)
        exact List.any_eq_true.mpr ⟨s, hs, hc⟩
      · exact ih (seen ++ [inc]) x hx s (by simp [hs])

/-- The dedup loop's output is pairwise clash-free. -/
theorem dedupGo_pairwise (l : List Incident) :
    ∀ seen : List Incident,
      (dedupGo seen l).Pairwise (fun a b => clash a b = false) := by
  induction l with
  | nil => intro seen; simp [dedupGo]
  | cons inc rest ih =>
    intro seen
    by_cases h : seen.any (fun s => clash s inc)
    · simpa [dedupGo, h] using ih seen
    · rw [dedupGo, if_neg h]
      refine List.pairwise_cons.mpr ⟨fun x hx => ?_, ih (seen ++ [inc])⟩
      exact mem_dedupGo_clash_false rest (seen ++ [inc]) x hx inc (by simp)

/-- The dedup loop is the spec's fold over accepted representatives. -/
theorem dedup_foldl_eq (l : List Incident) :
    ∀ seen : List Incident,
      l.foldl
        (fun accepted inc =>
          if accepted.any (fun r => clash r inc) then accepted else accepted ++ [inc])
        seen
      = seen ++ dedupGo seen l := by
  induction l with
  | nil => intro seen; simp [dedupGo]
  | cons inc rest ih =>
    intro seen
    by_cases h : seen.any (fun s => clash s inc)
    · simp only [List.foldl_cons, if_pos h, dedupGo, ih seen]
    · simp only [List.foldl_cons, if_neg h, dedupGo, ih (seen ++ [inc])]
      simp

/-- C1: on every input list, the Deduplicator keeps exactly the incidents that
clash with no earlier-accepted representative (it agrees with the spec's
first-seen-wins fold), its output has no two incidents of equal type with both
coordinate deltas strictly below 0.5, and incidents are passed through
unmodified, in input order (the output is a sublist of the input). -/
theorem deduplicator_first_seen_no_clash (l : List Incident) :
    deduplicateIncidents l = specFirstSeenDedup l
    ∧ (deduplicateIncidents l).Pairwise
        (fun a b => a.type = b.type → ¬(|a.lat - b.lat| < 0.5 ∧ |a.lng - b.lng| < 0.5))
    ∧ (deduplicateIncidents l).Sublist l := by
  refine ⟨?_, ?_, ?_⟩
  · rw [deduplicateIncidents, specFirstSeenDedup, dedup_foldl_eq l []]
    simp
  · exact (dedupGo_pairwise l []).imp (fun h => (clash_eq_false_iff _ _).mp h)
  · exact dedupGo_sublist l []

/-- C1 witness: a concrete two-incident clash resolves first-seen-wins. -/
theorem deduplicator_first_seen_no_clash_witness :
    deduplicateIncidents [baseIncident, nearDuplicateIncident]
      = specFirstSeenDedup [baseIncident, nearDuplicateIncident] :=
  (deduplicator_first_seen_no_clash [baseIncident, nearDuplicateIncident]).1

/-! ## Ranker lemmas -/

/-- The comparator relation unfolded to a propositional characterization. -/
theorem rankLE_iff (a b : Incident) :
    rankLE a b = true
      ↔ (sevTier a.severity < sevTier b.severity
         ∨ (sevTier a.severity = sevTier b.severity ∧ timeMs b.time ≤ timeMs a.time)) := by
  simp [rankLE, Bool.or_eq_true, Bool.and_eq_true, decide_eq_true_eq, beq_iff_eq]

/-- The comparator is transitive. -/
theorem rankLE_trans (a b c : Incident) :
    rankLE a b = true → rankLE b c = true → rankLE a c = true := by
  simp only [rankLE, Bool.or_eq_true, Bool.and_eq_true, decide_eq_true_eq, beq_iff_eq]
  omega

/-- The comparator is total. -/
theorem rankLE_total (a b : Incident) : (rankLE a b || rankLE b a) = true := by
  simp only [rankLE, Bool.or_eq_true, Bool.and_eq_true, decide_eq_true_eq, beq_iff_eq]
  omega

/-- C2 (amended): the Ranker's output is a permutation of its input sorted
primarily by severity tier ascending (critical=0, high=1, moderate=2, low=3,
unrecognized=3) and secondarily by time descending, a null/missing time being
treated as the Unix epoch (0 ms); two incidents with equal severity tier and
equal time keep their relative input order (stability). -/
theorem ranker_sorted_stable (l : List Incident) :
    (rankIncidents l).Pairwise (fun a b =>
        sevTier a.severity < sevTier b.severity
        ∨ (sevTier a.severity = sevTier b.severity ∧ timeMs b.time ≤ timeMs a.time))
    ∧ (rankIncidents l).Perm l
    ∧ ∀ a b : Incident,
        sevTier a.severity = sevTier b.severity → timeMs a.time = timeMs b.time →
        [a, b].Sublist l → [a, b].Sublist (rankIncidents l) := by
  refine ⟨?_, List.mergeSort_perm l rankLE, ?_⟩
  · exact (List.sorted_mergeSort rankLE_trans rankLE_total l).imp
      (fun h => (rankLE_iff _ _).mp h)
  · intro a b h1 h2 hsub
    refine List.sublist_mergeSort rankLE_trans rankLE_total ?_ hsub
    refine List.pairwise_cons.mpr ⟨?_, by simp⟩
    intro x hx
    rcases List.mem_singleton.mp hx with rfl
    exact (rankLE_iff a x).mpr (Or.inr ⟨h1, le_of_eq h2.symm⟩)

/-- C2 witness for the amended claim: a concrete equal-key pair keeps its
input order through the Ranker. -/
theorem ranker_sorted_stable_witness :
    [stableA, stableB].Sublist (rankIncidents [stableA, stableB]) :=
  (ranker_sorted_stable [stableA, stableB]).2.2 stableA stableB rfl rfl
    (List.Sublist.refl _)

unseal List.merge List.mergeSort in
/-- C2 counterexample: the claim reads "null/missing time treated as the
oldest possible value", but the code maps a null time to the Unix epoch
(`new Date(b.time || 0)`), which is newer than any pre-1970 timestamp: on the
input `[preEpochIncident, nullTimeIncident]` (equal severity, times
1969-12-31T23:59:59Z and null) the sort puts the null-time incident first,
so the output is not sorted descending under the null-is-oldest ordering. -/
theorem ranker_null_oldest_counterexample :
    ¬ (rankIncidents [preEpochIncident, nullTimeIncident]).Pairwise (fun a b =>
        sevTier a.severity < sevTier b.severity
        ∨ (sevTier a.severity = sevTier b.severity
           ∧ specNullOldestLE b.time a.time = true)) := by
  decide

/-! ## Aggregator and cache theorems -/

/-- C3: with all five adapters settled, the combined list is exactly the
concatenation of the successful adapters' incident lists in the fixed source
order USGS, NASA EONET, GDACS, ReliefWeb, Reddit — a rejected adapter
contributes nothing and removes nothing — and `sourceStatus` maps each source
name to its count on success or its error message on failure. -/
theorem aggregator_settled_concat (o : AdapterOutcomes) :
    processSettled (settledResults o)
      = ((match o.usgs with
          | FetchResult.fulfilled v => v
          | FetchResult.rejected _ => [])
          ++ (match o.nasa with
              | FetchResult.fulfilled v => v
              | FetchResult.rejected _ => [])
          ++ (match o.gdacs with
              | FetchResult.fulfilled v => v
              | FetchResult.rejected _ => [])
          ++ (match o.reliefweb with
              | FetchResult.fulfilled v => v
              | FetchResult.rejected _ => [])
          ++ (match o.reddit with
              | FetchResult.fulfilled v => v
              | FetchResult.rejected _ => []),
         [("USGS",
           match o.usgs with
           | FetchResult.fulfilled v => SourceStatus.ok v.length
           | FetchResult.rejected e => SourceStatus.failed e),
          ("NASA EONET",
           match o.nasa with
           | FetchResult.fulfilled v => SourceStatus.ok v.length
           | FetchResult.rejected e => SourceStatus.failed e),
          ("GDACS",
           match o.gdacs with
           | FetchResult.fulfilled v => SourceStatus.ok v.length
           | FetchResult.rejected e => SourceStatus.failed e),
          ("ReliefWeb",
           match o.reliefweb with
           | FetchResult.fulfilled v => SourceStatus.ok v.length
           | FetchResult.rejected e => SourceStatus.failed e),
          ("Reddit",
           match o.reddit with
           | FetchResult.fulfilled v => SourceStatus.ok v.length
           | FetchResult.rejected e => SourceStatus.failed e)]) := by
  obtain ⟨u, n, g, r, d⟩ := o
  cases u <;> cases n <;> cases g <;> cases r <;> cases d <;>
    simp [processSettled, settledResults, sourceNames, recordResult, List.append_assoc]

/-- C3 witness: a concrete mixed outcome, evaluated. -/
theorem aggregator_settled_concat_witness :
    processSettled (settledResults oMixed)
      = ([baseIncident, nullTimeIncident],
         [("USGS", SourceStatus.ok 1),
          ("NASA EONET", SourceStatus.failed "timeout of 10000ms exceeded"),
          ("GDACS", SourceStatus.ok 0),
          ("ReliefWeb", SourceStatus.failed "server error"),
          ("Reddit", SourceStatus.ok 1)]) :=
  aggregator_settled_concat oMixed

/-- C4: the `/api/incidents` cache behaviour. First, the general hit rule:
whenever a cache entry exists (with the positive timestamp `Date.now()`
produces) and fewer than `CACHE_TTL_MS` milliseconds have passed, the stored
result is returned unchanged, flagged as served from cache, and the cache is
untouched. Then the round trip from an empty cache: the first call computes
freshly and stores; a second call within the TTL returns the identical stored
result flagged `fromCache`; a call at or after the TTL recomputes with
`fetchedAt` advanced to the new time. -/
theorem cache_ttl_roundtrip (o0 o1 o2 : AdapterOutcomes) (t0 t1 t2 : Int)
    (h0 : 0 < t0) (h1 : t1 - t0 < CACHE_TTL_MS) (h2 : CACHE_TTL_MS ≤ t2 - t0) :
    (∀ (c : Cache) (d : AggregationResult) (ts now : Int) (o : AdapterOutcomes),
        c.data = some d → c.timestamp = some ts → 0 < ts →
        now - ts < CACHE_TTL_MS →
        getAllIncidents c now o = ({ result := d, fromCache := true }, c))
    ∧ (getAllIncidents emptyCache t0 o0).1.fromCache = false
    ∧ (getAllIncidents emptyCache t0 o0).1.result = aggregateAllSources o0 t0
    ∧ (getAllIncidents (getAllIncidents emptyCache t0 o0).2 t1 o1).1.result
        = (getAllIncidents emptyCache t0 o0).1.result
    ∧ (getAllIncidents (getAllIncidents emptyCache t0 o0).2 t1 o1).1.fromCache = true
    ∧ (getAllIncidents (getAllIncidents emptyCache t0 o0).2 t1 o1).2
        = (getAllIncidents emptyCache t0 o0).2
    ∧ (getAllIncidents (getAllIncidents emptyCache t0 o0).2 t2 o2).1.fromCache = false
    ∧ (getAllIncidents (getAllIncidents emptyCache t0 o0).2 t2 o2).1.result.fetchedAt = t2
    ∧ (getAllIncidents emptyCache t0 o0).1.result.fetchedAt
        < (getAllIncidents (getAllIncidents emptyCache t0 o0).2 t2 o2).1.result.fetchedAt := by
  have httl : CACHE_TTL_MS = 180000 := by norm_num [CACHE_TTL_MS]
  have hfirst : getAllIncidents emptyCache t0 o0 = refreshCache t0 o0 := by
    simp [getAllIncidents, emptyCache]
  have hc1 : (getAllIncidents emptyCache t0 o0).2
      = { data := some (aggregateAllSources o0 t0), timestamp := some t0 } := by
    rw [hfirst]; rfl
  have hhit : ∀ (c : Cache) (d : AggregationResult) (ts now : Int) (o : AdapterOutcomes),
      c.data = some d → c.timestamp = some ts → 0 < ts →
      now - ts < CACHE_TTL_MS →
      getAllIncidents c now o = ({ result := d, fromCache := true }, c) := by
    intro c d ts now o hd hts hpos hlt
    obtain ⟨cd, ct⟩ := c
    simp only at hd hts
    subst hd; subst hts
    have hne : (ts != 0) = true := by simp; omega
    simp [getAllIncidents, hne, hlt]
  refine ⟨hhit, ?_, ?_, ?_, ?_, ?_, ?_, ?_, ?_⟩
  · rw [hfirst]; rfl
  · rw [hfirst]; rfl
  · rw [hc1, hhit _ (aggregateAllSources o0 t0) t0 t1 o1 rfl rfl h0 h1, hfirst]; rfl
  · rw [hc1, hhit _ (aggregateAllSources o0 t0) t0 t1 o1 rfl rfl h0 h1]
  · rw [hc1, hhit _ (aggregateAllSources o0 t0) t0 t1 o1 rfl rfl h0 h1]
  · rw [hc1]
    have hmiss : getAllIncidents
        { data := some (aggregateAllSources o0 t0), timestamp := some t0 } t2 o2
        = refreshCache t2 o2 := by
      have hge : ¬ (t2 - t0 < CACHE_TTL_MS) := by omega
      simp [getAllIncidents, hge]
    rw [hmiss]; rfl
  · rw [hc1]
    have hge : ¬ (t2 - t0 < CACHE_TTL_MS) := by omega
    simp [getAllIncidents, hge, refreshCache, aggregateAllSources]
  · rw [hc1, hfirst]
    have hge : ¬ (t2 - t0 < CACHE_TTL_MS) := by omega
    simp [getAllIncidents, hge, refreshCache, aggregateAllSources]
    omega

/-- C4 witness: concrete times 1, 2 and 180001 from an empty cache with all
adapters failed. -/
theorem cache_ttl_roundtrip_witness :
    (getAllIncidents (getAllIncidents emptyCache 1 oRejected).2 2 oRejected).1.fromCache = true
    ∧ (getAllIncidents (getAllIncidents emptyCache 1 oRejected).2 180001 oRejected).1.fromCache
        = false :=
  ⟨(cache_ttl_roundtrip oRejected oRejected oRejected 1 2 180001 (by decide)
      (by norm_num [CACHE_TTL_MS]) (by norm_num [CACHE_TTL_MS])).2.2.2.2.1,
   (cache_ttl_roundtrip oRejected oRejected oRejected 1 2 180001 (by decide)
      (by norm_num [CACHE_TTL_MS]) (by norm_num [CACHE_TTL_MS])).2.2.2.2.2.2.1⟩

/-! ## Adapter coordinate-validation lemmas -/

/-- A truthy numeric field is a finite number. -/
theorem truthyNum_isNum {v : RawVal} (h : truthyNum v = true) : v.isNum = true := by
  cases v <;> simp_all [truthyNum, RawVal.isNum]

/-- A field passing the `isNaN` guard is a finite number. -/
theorem jsIsNaN_false_isNum {v : RawVal} (h : jsIsNaN v = false) : v.isNum = true := by
  cases v <;> simp_all [jsIsNaN, RawVal.isNum]

/-- A NaN/absent field is falsy. -/
theorem jsIsNaN_true_not_truthy {v : RawVal} (h : jsIsNaN v = true) :
    truthyNum v = false := by
  cases v <;> simp_all [jsIsNaN, truthyNum]

/-- On a Point coordinate payload the destructuring either skips (type
mismatch) or yields exactly that point's coordinates. -/
theorem eonetCoordPair_pointC (gt : String) (lng lat : RawVal) :
    eonetCoordPair gt (GeoCoords.pointC lng lat) = none
    ∨ eonetCoordPair gt (GeoCoords.pointC lng lat) = some (lng, lat) := by
  cases hm : eonetCoordPair gt (GeoCoords.pointC lng lat) with
  | none => exact Or.inl rfl
  | some p =>
    refine Or.inr ?_
    unfold eonetCoordPair at hm
    split at hm <;> simp_all

/-- On a Polygon coordinate payload the destructuring either skips (type
mismatch) or yields exactly the stored first vertex. -/
theorem eonetCoordPair_polyC (gt : String) (lng lat : RawVal) :
    eonetCoordPair gt (GeoCoords.polyC lng lat) = none
    ∨ eonetCoordPair gt (GeoCoords.polyC lng lat) = some (lng, lat) := by
  cases hm : eonetCoordPair gt (GeoCoords.polyC lng lat) with
  | none => exact Or.inl rfl
  | some p =>
    refine Or.inr ?_
    unfold eonetCoordPair at hm
    split at hm <;> simp_all

/-- The coordinate destructuring succeeds exactly on a Point geometry at its
own coordinates or a Polygon geometry at its stored first vertex. -/
theorem eonetCoordPair_some_iff (gt : String) (gc : GeoCoords) (lng lat : RawVal) :
    eonetCoordPair gt gc = some (lng, lat)
      ↔ ((gt = "Point" ∧ gc = GeoCoords.pointC lng lat)
         ∨ (gt = "Polygon" ∧ gc = GeoCoords.polyC lng lat)) := by
  constructor
  · intro h
    unfold eonetCoordPair at h
    split at h <;> simp_all
  · intro h
    rcases h with ⟨h1, h2⟩ | ⟨h1, h2⟩ <;> subst h1 <;> subst h2 <;> rfl

/-- Every incident the EONET adapter emits has finite coordinates. -/
theorem eonetProcess_some_isNum {now : Int} {e : EONETEvent} {i : RawIncident}
    (h : eonetProcess now e = some i) : i.lat.isNum = true ∧ i.lng.isNum = true := by
  simp only [eonetProcess] at h
  split at h
  · exact absurd h (by simp)
  · split at h
    · exact absurd h (by simp)
    · split at h
      · exact absurd h (by simp)
      · rename_i lnglat lng lat heq
        split at h
        · exact absurd h (by simp)
        · rename_i hguard
          injection h with h
          subst h
          simp only [Bool.or_eq_true, not_or, Bool.not_eq_true] at hguard
          exact ⟨jsIsNaN_false_isNum hguard.1, jsIsNaN_false_isNum hguard.2⟩

/-- Every incident the GDACS adapter emits has finite coordinates. -/
theorem gdacsProcess_some_isNum {now : Int} {idx : Nat} {item : GDACSItem}
    {i : RawIncident} (h : gdacsProcess now idx item = some i) :
    i.lat.isNum = true ∧ i.lng.isNum = true := by
  simp only [gdacsProcess] at h
  split at h
  · exact absurd h (by simp)
  · rename_i hguard
    injection h with h
    subst h
    simp only [Bool.or_eq_true, not_or, Bool.not_eq_true] at hguard
    exact ⟨jsIsNaN_false_isNum hguard.1, jsIsNaN_false_isNum hguard.2⟩

/-- Every incident the ReliefWeb adapter emits has finite coordinates. -/
theorem rwProcess_some_isNum {item : RWItem} {i : RawIncident}
    (h : rwProcess item = some i) : i.lat.isNum = true ∧ i.lng.isNum = true := by
  simp only [rwProcess] at h
  split at h
  · exact absurd h (by simp)
  · split at h
    · exact absurd h (by simp)
    · rename_i pair lngRaw latRaw heq
      split at h
      · exact absurd h (by simp)
      · rename_i hguard
        injection h with h
        subst h
        simp only [Bool.or_eq_true, not_or, Bool.not_eq_true] at hguard
        exact ⟨jsIsNaN_false_isNum hguard.1, jsIsNaN_false_isNum hguard.2⟩

/-- Every incident the Reddit adapter emits has finite coordinates (they come
from the gazetteer). -/
theorem processRedditPost_some_isNum {subName : String} {jLat jLng : ℚ}
    {p : RedditPost} {i : RawIncident}
    (h : processRedditPost subName jLat jLng p = some i) :
    i.lat.isNum = true ∧ i.lng.isNum = true := by
  simp only [processRedditPost] at h
  split at h
  · exact absurd h (by simp)
  · split at h
    · exact absurd h (by simp)
    · split at h
      · exact absurd h (by simp)
      · rename_i loc locName la ln heq
        injection h with h
        subst h
        exact ⟨rfl, rfl⟩

/-- C5: no adapter lets a record with a missing or non-numeric latitude or
longitude through. Output direction: every incident any adapter emits has
finite numeric coordinates. Drop direction: a seismic feature whose raw
coordinates are NaN/absent fails the output filter; a satellite event whose
(last) geometry carries a NaN/absent coordinate, a multi-hazard alert whose
extracted coordinates parse to NaN, and a humanitarian record without a
parseable country location each normalize to nothing. -/
theorem adapters_drop_invalid_coordinates :
    (∀ feats : List USGSFeature, ∀ i ∈ fetchUSGS feats,
        i.lat.isNum = true ∧ i.lng.isNum = true)
    ∧ (∀ f : USGSFeature, jsIsNaN f.latRaw = true ∨ jsIsNaN f.lngRaw = true →
        usgsKeep (usgsMap f) = false)
    ∧ (∀ (now : Int) (events : List EONETEvent), ∀ i ∈ fetchNASAEONET now events,
        i.lat.isNum = true ∧ i.lng.isNum = true)
    ∧ (∀ (now : Int) (e : EONETEvent) (geo : EONETGeometry) (lng lat : RawVal),
        e.geometry.getLast? = some geo →
        (geo.coords = some (GeoCoords.pointC lng lat)
         ∨ geo.coords = some (GeoCoords.polyC lng lat)) →
        jsIsNaN lat = true ∨ jsIsNaN lng = true →
        eonetProcess now e = none)
    ∧ (∀ (now : Int) (items : List GDACSItem), ∀ i ∈ fetchGDACS now items,
        i.lat.isNum = true ∧ i.lng.isNum = true)
    ∧ (∀ (now : Int) (idx : Nat) (item : GDACSItem),
        jsIsNaN item.latRaw = true ∨ jsIsNaN item.lngRaw = true →
        gdacsProcess now idx item = none)
    ∧ (∀ items : List RWItem, ∀ i ∈ fetchReliefWeb items,
        i.lat.isNum = true ∧ i.lng.isNum = true)
    ∧ (∀ (item : RWItem) (c : RWCountry), item.country = some c → c.location = none →
        rwProcess item = none)
    ∧ (∀ item : RWItem, item.country = none → rwProcess item = none)
    ∧ (∀ (item : RWItem) (c : RWCountry) (lngRaw latRaw : RawVal),
        item.country = some c → c.location = some (lngRaw, latRaw) →
        jsIsNaN latRaw = true ∨ jsIsNaN lngRaw = true →
        rwProcess item = none)
    ∧ (∀ (env : RedditEnv) (tr : Except String Unit) (sf : List SubFetch)
         (out : List RawIncident),
        fetchRedditPosts env tr sf = Except.ok out →
        ∀ i ∈ out, i.lat.isNum = true ∧ i.lng.isNum = true) := by
  refine ⟨?_, ?_, ?_, ?_, ?_, ?_, ?_, ?_, ?_, ?_, ?_⟩
  · intro feats i hi
    have hk := (List.mem_filter.mp hi).2
    simp only [usgsKeep, Bool.and_eq_true] at hk
    exact ⟨truthyNum_isNum hk.1, truthyNum_isNum hk.2⟩
  · intro f h
    rcases h with h | h <;>
      simp [usgsKeep, usgsMap, jsIsNaN_true_not_truthy h]
  · intro now events i hi
    obtain ⟨e, _, he⟩ := List.mem_filterMap.mp hi
    exact eonetProcess_some_isNum he
  · intro now e geo lng lat hlast hcoords hbad
    have hor : (jsIsNaN lat || jsIsNaN lng) = true := by
      rcases hbad with h | h <;> simp [h]
    rcases hcoords with hc | hc
    · rcases eonetCoordPair_pointC geo.gtype lng lat with hm | hm <;>
        simp [eonetProcess, hlast, hc, hm, hor]
    · rcases eonetCoordPair_polyC geo.gtype lng lat with hm | hm <;>
        simp [eonetProcess, hlast, hc, hm, hor]
  · intro now items i hi
    obtain ⟨p, _, hp⟩ := List.mem_filterMap.mp hi
    exact gdacsProcess_some_isNum hp
  · intro now idx item h
    have : (jsIsNaN item.latRaw || jsIsNaN item.lngRaw) = true := by
      rcases h with h | h <;> simp [h]
    simp [gdacsProcess, this]
  · intro items i hi
    obtain ⟨item, _, hitem⟩ := List.mem_filterMap.mp hi
    exact rwProcess_some_isNum hitem
  · intro item c hcy hloc
    simp [rwProcess, hcy, hloc]
  · intro item hcy
    simp [rwProcess, hcy]
  · intro item c lngRaw latRaw hcy hloc hbad
    have : (jsIsNaN latRaw || jsIsNaN lngRaw) = true := by
      rcases hbad with h | h <;> simp [h]
    simp [rwProcess, hcy, hloc, this]
  · intro env tr sf out hout i hi
    simp only [fetchRedditPosts] at hout
    split at hout
    · injection hout with hout
      subst hout
      exact absurd hi (by simp)
    · split at hout
      · exact absurd hout (by simp)
      · injection hout with hout
        subst hout
        obtain ⟨sub, hsub, hin⟩ := List.mem_flatten.mp hi
        obtain ⟨sf1, _, hmap⟩ := List.mem_map.mp hsub
        subst hmap
        revert hin
        split
        · intro hin; exact absurd hin (by simp)
        · intro hin
          obtain ⟨pj, _, hpj⟩ := List.mem_filterMap.mp hin
          exact processRedditPost_some_isNum hpj

/-- C5 witness: a seismic feature whose latitude is absent is rejected by the
output filter. -/
theorem adapters_drop_invalid_coordinates_witness :
    usgsKeep (usgsMap featureNoLat) = false :=
  adapters_drop_invalid_coordinates.2.1 featureNoLat (Or.inl (by decide))

/-! ## Seismic severity and magnitude (C6, C9) -/

/-- C6: the seismic adapter classifies severity by the fixed magnitude
thresholds 6.5 / 5.5 / 4.5 (critical / high / moderate, else low), and the
stored magnitude is the input magnitude rounded to one decimal place: an
integer multiple of 0.1 within 0.05 of the input. -/
theorem usgs_severity_magnitude (f : USGSFeature) :
    ((6.5 : ℚ) ≤ f.mag → (usgsMap f).severity = "critical")
    ∧ ((5.5 : ℚ) ≤ f.mag → f.mag < 6.5 → (usgsMap f).severity = "high")
    ∧ ((4.5 : ℚ) ≤ f.mag → f.mag < 5.5 → (usgsMap f).severity = "moderate")
    ∧ (f.mag < (4.5 : ℚ) → (usgsMap f).severity = "low")
    ∧ ∃ n : ℤ, (usgsMap f).magnitude = some ((n : ℚ) / 10)
        ∧ |((n : ℚ) / 10) - f.mag| ≤ 1 / 20 := by
  refine ⟨?_, ?_, ?_, ?_, ?_⟩
  · intro h
    simp only [usgsMap, usgsSeverity, ge_iff_le]
    rw [if_pos h]
  · intro h1 h2
    simp only [usgsMap, usgsSeverity, ge_iff_le]
    rw [if_neg (not_le.mpr h2), if_pos h1]
  · intro h1 h2
    have h3 : f.mag < 6.5 := lt_trans h2 (by norm_num)
    simp only [usgsMap, usgsSeverity, ge_iff_le]
    rw [if_neg (not_le.mpr h3), if_neg (not_le.mpr h2), if_pos h1]
  · intro h1
    have h2 : f.mag < 5.5 := lt_trans h1 (by norm_num)
    have h3 : f.mag < 6.5 := lt_trans h1 (by norm_num)
    simp only [usgsMap, usgsSeverity, ge_iff_le]
    rw [if_neg (not_le.mpr h3), if_neg (not_le.mpr h2), if_neg (not_le.mpr h1)]
  · refine ⟨round (f.mag * 10), rfl, ?_⟩
    have h := abs_sub_round (f.mag * 10)
    rw [abs_sub_comm] at h
    have e : ((round (f.mag * 10) : ℤ) : ℚ) / 10 - f.mag
        = (((round (f.mag * 10) : ℤ) : ℚ) - f.mag * 10) / 10 := by ring
    rw [e, abs_div]
    have h10 : |(10 : ℚ)| = 10 := by norm_num
    rw [h10]
    linarith

/-- C6 witness: magnitudes 6.6, 5.6, 4.6 and 3.0 classify as critical, high,
moderate and low. -/
theorem usgs_severity_magnitude_witness :
    (usgsMap feature66).severity = "critical"
    ∧ (usgsMap feature56).severity = "high"
    ∧ (usgsMap feature46).severity = "moderate"
    ∧ (usgsMap feature30).severity = "low" :=
  ⟨(usgs_severity_magnitude feature66).1 (by norm_num [feature66]),
   (usgs_severity_magnitude feature56).2.1 (by norm_num [feature56, feature66])
     (by norm_num [feature56, feature66]),
   (usgs_severity_magnitude feature46).2.2.1 (by norm_num [feature46, feature66])
     (by norm_num [feature46, feature66]),
   (usgs_severity_magnitude feature30).2.2.2.1 (by norm_num [feature30, feature66])⟩

/-- C9: the seismic adapter's output filter demands truthy coordinates, which
drops a genuine earthquake whose latitude or longitude is exactly 0: such a
record fails the filter, and no incident with a zero coordinate ever appears
in the adapter's output. -/
theorem usgs_drops_equator_prime_meridian (feats : List USGSFeature)
    (f : USGSFeature) (h : f.latRaw = RawVal.num 0 ∨ f.lngRaw = RawVal.num 0) :
    usgsKeep (usgsMap f) = false
    ∧ ∀ i ∈ fetchUSGS feats, i.lat ≠ RawVal.num 0 ∧ i.lng ≠ RawVal.num 0 := by
  constructor
  · rcases h with h | h <;> simp [usgsKeep, usgsMap, truthyNum, h]
  · intro i hi
    have hk := (List.mem_filter.mp hi).2
    simp only [usgsKeep, Bool.and_eq_true] at hk
    constructor
    · intro he; rw [he] at hk; simp [truthyNum] at hk
    · intro he; rw [he] at hk; simp [truthyNum] at hk

/-- C9 witness: a valid magnitude-6.6 quake at latitude 0 is dropped. -/
theorem usgs_drops_equator_witness : usgsKeep (usgsMap featureZeroLat) = false :=
  (usgs_drops_equator_prime_meridian [] featureZeroLat (Or.inl (by decide))).1

/-! ## Satellite-event geometry and severity (C7) -/

/-- The EONET severity lookup, characterized over all type strings. -/
theorem eonetSev_lookup_eq (t : String) :
    (eonetSevMap.lookup t).getD "moderate"
      = (if t = "tsunami" then "critical"
         else if t = "fire" ∨ t = "volcano" ∨ t = "storm" then "high"
         else "moderate") := by
  by_cases h1 : t = "fire"
  · subst h1; decide
  by_cases h2 : t = "volcano"
  · subst h2; decide
  by_cases h3 : t = "tsunami"
  · subst h3; decide
  by_cases h4 : t = "flood"
  · subst h4; decide
  by_cases h5 : t = "storm"
  · subst h5; decide
  have e1 : (t == "fire") = false := beq_eq_false_iff_ne.mpr h1
  have e2 : (t == "volcano") = false := beq_eq_false_iff_ne.mpr h2
  have e3 : (t == "tsunami") = false := beq_eq_false_iff_ne.mpr h3
  have e4 : (t == "flood") = false := beq_eq_false_iff_ne.mpr h4
  have e5 : (t == "storm") = false := beq_eq_false_iff_ne.mpr h5
  simp [eonetSevMap, List.lookup, e1, e2, e3, e4, e5, h1, h2, h3, h4, h5]

/-- C7: a satellite-feed incident takes its coordinates from the last entry of
the event's geometry sequence — a Point's own coordinates, or the stored first
vertex of a Polygon — and its severity is the fixed lookup on the mapped type:
tsunami critical; fire, volcano and storm high; flood and anything else
moderate. -/
theorem eonet_last_geometry_severity (now : Int) (e : EONETEvent)
    (i : RawIncident) (h : eonetProcess now e = some i) :
    (∃ geo : EONETGeometry, e.geometry.getLast? = some geo
      ∧ ((geo.gtype = "Point"
            ∧ ∃ lng lat, geo.coords = some (GeoCoords.pointC lng lat)
                ∧ i.lng = lng ∧ i.lat = lat)
         ∨ (geo.gtype = "Polygon"
            ∧ ∃ lng lat, geo.coords = some (GeoCoords.polyC lng lat)
                ∧ i.lng = lng ∧ i.lat = lat)))
    ∧ i.severity =
        (if (eonetTypeMap.lookup (e.categoryTitle.getD "Unknown")).getD "other"
            = "tsunami" then "critical"
         else if (eonetTypeMap.lookup (e.categoryTitle.getD "Unknown")).getD "other"
                = "fire"
              ∨ (eonetTypeMap.lookup (e.categoryTitle.getD "Unknown")).getD "other"
                = "volcano"
              ∨ (eonetTypeMap.lookup (e.categoryTitle.getD "Unknown")).getD "other"
                = "storm" then "high"
         else "moderate") := by
  simp only [eonetProcess] at h
  split at h
  · exact absurd h (by simp)
  · rename_i geo hlast
    split at h
    · exact absurd h (by simp)
    · rename_i gc hcoords
      cases hpair : eonetCoordPair geo.gtype gc with
      | none => rw [hpair] at h; exact absurd h (by simp)
      | some pr =>
        obtain ⟨lng, lat⟩ := pr
        rw [hpair] at h
        simp only at h
        split at h
        · exact absurd h (by simp)
        · injection h with h
          subst h
          constructor
          · refine ⟨geo, hlast, ?_⟩
            rcases (eonetCoordPair_some_iff geo.gtype gc lng lat).mp hpair with
              ⟨hg, hgc⟩ | ⟨hg, hgc⟩
            · exact Or.inl ⟨hg, lng, lat, hgc ▸ hcoords, rfl, rfl⟩
            · exact Or.inr ⟨hg, lng, lat, hgc ▸ hcoords, rfl, rfl⟩
          · exact eonetSev_lookup_eq _

/-- C7 witness: a concrete wildfire event whose last geometry is a Point
yields an incident at that point with severity high. -/
theorem eonet_last_geometry_severity_witness :
    sampleEventIncident.severity = "high" :=
  (eonet_last_geometry_severity 0 sampleEvent sampleEventIncident (by decide)).2

/-! ## Social-text adapter credentials (C8) -/

/-- C8: with no client id configured (variable absent, or present but empty
and hence falsy) the Reddit adapter returns an empty incident list without
failing; missing credentials only disable this one source. -/
theorem reddit_no_credentials (env : RedditEnv) (tr : Except String Unit)
    (sf : List SubFetch) (h : env.clientId = none ∨ env.clientId = some "") :
    fetchRedditPosts env tr sf = Except.ok [] := by
  rcases h with h | h <;> simp [fetchRedditPosts, truthyStr, h]

/-- C8 witness: the empty environment yields an empty successful result. -/
theorem reddit_no_credentials_witness :
    fetchRedditPosts noCredEnv (Except.ok ()) [] = Except.ok [] :=
  reddit_no_credentials noCredEnv (Except.ok ()) [] (Or.inl rfl)

/-! ## Type-filtered endpoint ignores the TTL (C10) -/

/-- C10: `/api/incidents/:type` never consults the TTL: with any cache entry
present — however old its timestamp — it filters the cached incidents without
recomputing; with no entry it aggregates freshly but does not store the
result, leaving the cache unchanged, so a subsequent `/api/incidents` call
still recomputes. -/
theorem byType_ignores_cache_ttl (c : Cache) (d : AggregationResult) (t : String)
    (now : Int) (o : AdapterOutcomes) :
    (c.data = some d →
      getIncidentsByType c t now o
        = ((d.incidents.filter (fun i => i.type == t),
            (d.incidents.filter (fun i => i.type == t)).length, false), c))
    ∧ (c.data = none →
      (getIncidentsByType c t now o).1.2.2 = true
      ∧ (getIncidentsByType c t now o).2 = c
      ∧ ∀ (now2 : Int) (o2 : AdapterOutcomes),
          (getAllIncidents c now2 o2).1.fromCache = false) := by
  obtain ⟨cd, ct⟩ := c
  constructor
  · intro h
    simp only at h
    subst h
    rfl
  · intro h
    simp only at h
    subst h
    refine ⟨rfl, rfl, ?_⟩
    intro now2 o2
    cases ct <;> rfl

/-- C10 witness: with a cache entry stored at time 1 and the clock at
10000001 (far beyond the TTL), the filtered cached incidents are served with
no recomputation. -/
theorem byType_ignores_cache_ttl_witness :
    getIncidentsByType staleCache "flood" 10000001 oRejected
      = ((sampleAgg.incidents.filter (fun i => i.type == "flood"),
          (sampleAgg.incidents.filter (fun i => i.type == "flood")).length, false),
         staleCache) :=
  (byType_ignores_cache_ttl staleCache sampleAgg "flood" 10000001 oRejected).1 rfl

end DisasterWatch
